import Mathlib

/-!
# Verification of the document-portal custom connector

Shallow embedding of the connector notebook
(`document-portal-example/connector-notebook.ipynb`):
the batcher (`create_batches`), the utility functions
(`convert_raw_binary_to_base64_string`, `convert_timestamp_to_epoch_seconds`),
the transformer (`transform_document`), and the two upload drivers
(bulk page loop and individual document loop).

Conventions of the embedding:
* bytes and characters are modelled as `Nat` code points;
* Python dictionary keys that may be present or absent are modelled as
  `Option` fields (`none` = key absent);
* code that raises an exception is modelled as returning `Option`/`Except`
  failure values;
* HTTP responses are modelled by a function `resp : Nat → Nat` giving the
  status code returned for the request with a given index.
-/

namespace Connector

/-! ## Configuration constants (notebook cell 2) -/

def datasource_name : String := "mydocumentportal"

def object_type : String := "policy"

/-! ## Batcher

Source (notebook cell 6):
```python
def create_batches(lst, batch_size):
    for i in range(0, len(lst), batch_size):
        yield lst[i:i + batch_size]
```
`lst[i:i+batch_size]` is `(lst.drop i).take batch_size`; iterating `i` by
steps of `batch_size` is the recursion below.  The recursion is expressed
structurally with a fuel argument (`fuel = lst.length` always suffices,
because each step drops at least one element when `batch_size > 0`); Python
raises `ValueError` for `batch_size = 0` (`range` step 0), modelled as `[]`
(no claim touches that case). -/

def create_batchesFuel {α : Type} : Nat → List α → Nat → List (List α)
  | _, [], _ => []
  | 0, _ :: _, _ => []
  | fuel + 1, x :: xs, batch_size =>
    if batch_size = 0 then []
    else (x :: xs).take batch_size ::
      create_batchesFuel fuel ((x :: xs).drop batch_size) batch_size

def create_batches {α : Type} (lst : List α) (batch_size : Nat) : List (List α) :=
  create_batchesFuel lst.length lst batch_size

theorem create_batchesFuel_nil {α : Type} (f B : Nat) :
    create_batchesFuel (α := α) f [] B = [] := by
  cases f <;> rfl

theorem create_batchesFuel_fuel_irrel {α : Type} :
    ∀ (f g : Nat) (l : List α) (B : Nat), l.length ≤ f → l.length ≤ g → 0 < B →
      create_batchesFuel f l B = create_batchesFuel g l B := by
  intro f
  induction f with
  | zero =>
    intro g l B hf _ _
    have : l = [] := List.eq_nil_of_length_eq_zero (Nat.le_zero.mp hf)
    subst this
    simp [create_batchesFuel_nil]
  | succ f ih =>
    intro g l B hf hg hB
    cases l with
    | nil => simp [create_batchesFuel_nil]
    | cons x xs =>
      cases g with
      | zero => simp at hg
      | succ g =>
        simp only [create_batchesFuel]
        have hB' : ¬ B = 0 := Nat.pos_iff_ne_zero.mp hB
        rw [if_neg hB', if_neg hB']
        have hlen : ((x :: xs).drop B).length ≤ f := by
          simp only [List.length_drop, List.length_cons]
          simp only [List.length_cons] at hf
          omega
        have hlen' : ((x :: xs).drop B).length ≤ g := by
          simp only [List.length_drop, List.length_cons]
          simp only [List.length_cons] at hg
          omega
        rw [ih g _ B hlen hlen' hB]

theorem create_batches_nil {α : Type} (B : Nat) :
    create_batches ([] : List α) B = [] := rfl

/-- Unfolding equation for `create_batches` on a non-empty list. -/
theorem create_batches_cons {α : Type} (x : α) (xs : List α) (B : Nat) (hB : 0 < B) :
    create_batches (x :: xs) B =
      (x :: xs).take B :: create_batches ((x :: xs).drop B) B := by
  simp only [create_batches, List.length_cons, create_batchesFuel,
    if_neg (Nat.pos_iff_ne_zero.mp hB)]
  congr 1
  apply create_batchesFuel_fuel_irrel
  · simp only [List.length_drop, List.length_cons]; omega
  · simp [List.length_drop]
  · exact hB

theorem drop_length_le {α : Type} (x : α) (xs : List α) (B n : Nat)
    (hB : 0 < B) (hl : (x :: xs).length ≤ n + 1) :
    ((x :: xs).drop B).length ≤ n := by
  simp only [List.length_drop, List.length_cons]
  simp only [List.length_cons] at hl
  omega

theorem create_batches_join {α : Type} (B : Nat) (hB : 0 < B) :
    ∀ (n : Nat) (l : List α), l.length ≤ n → (create_batches l B).flatten = l := by
  intro n
  induction n with
  | zero =>
    intro l hl
    have : l = [] := List.eq_nil_of_length_eq_zero (Nat.le_zero.mp hl)
    subst this
    simp [create_batches_nil]
  | succ n ih =>
    intro l hl
    cases l with
    | nil => simp [create_batches_nil]
    | cons x xs =>
      rw [create_batches_cons x xs B hB, List.flatten_cons,
        ih ((x :: xs).drop B) (drop_length_le x xs B n hB hl)]
      exact List.take_append_drop B (x :: xs)

theorem create_batches_length {α : Type} (B : Nat) (hB : 0 < B) :
    ∀ (n : Nat) (l : List α), l.length ≤ n →
      (create_batches l B).length = (l.length + B - 1) / B := by
  intro n
  induction n with
  | zero =>
    intro l hl
    have : l = [] := List.eq_nil_of_length_eq_zero (Nat.le_zero.mp hl)
    subst this
    rw [create_batches_nil]
    simp only [List.length_nil, Nat.zero_add]
    rw [Nat.div_eq_of_lt (by omega)]
  | succ n ih =>
    intro l hl
    cases l with
    | nil =>
      rw [create_batches_nil]
      simp only [List.length_nil, Nat.zero_add]
      rw [Nat.div_eq_of_lt (by omega)]
    | cons x xs =>
      rw [create_batches_cons x xs B hB]
      simp only [List.length_cons]
      rw [ih ((x :: xs).drop B) (drop_length_le x xs B n hB hl)]
      simp only [List.length_drop, List.length_cons]
      set N := xs.length + 1 with hN
      have hN1 : 1 ≤ N := by omega
      have h1 : N + B - 1 = (N - 1) + B := by omega
      rw [h1, Nat.add_div_right _ hB]
      by_cases hNB : N ≤ B
      · have hd : N - B = 0 := by omega
        rw [hd]
        have h0 : (N - 1) / B = 0 := Nat.div_eq_of_lt (by omega)
        rw [h0]
        simp only [Nat.zero_add]
        rw [Nat.div_eq_of_lt (show B - 1 < B by omega)]
      · have h2 : N - B + B - 1 = (N - B - 1) + B := by omega
        rw [h2, Nat.add_div_right _ hB]
        have h3 : N - 1 = (N - B - 1) + B := by omega
        rw [h3, Nat.add_div_right _ hB]

theorem create_batches_eq_nil_iff {α : Type} (l : List α) (B : Nat) (hB : 0 < B) :
    create_batches l B = [] ↔ l = [] := by
  cases l with
  | nil => simp [create_batches_nil]
  | cons x xs => simp [create_batches_cons x xs B hB]

theorem create_batches_dropLast {α : Type} (B : Nat) (hB : 0 < B) :
    ∀ (n : Nat) (l : List α), l.length ≤ n →
      ∀ b ∈ (create_batches l B).dropLast, b.length = B := by
  intro n
  induction n with
  | zero =>
    intro l hl
    have : l = [] := List.eq_nil_of_length_eq_zero (Nat.le_zero.mp hl)
    subst this
    simp [create_batches_nil]
  | succ n ih =>
    intro l hl b hb
    cases l with
    | nil => simp [create_batches_nil] at hb
    | cons x xs =>
      rw [create_batches_cons x xs B hB] at hb
      by_cases hrec : create_batches ((x :: xs).drop B) B = []
      · rw [hrec] at hb
        simp at hb
      · rw [List.dropLast_cons_of_ne_nil hrec] at hb
        have hdrop : (x :: xs).drop B ≠ [] :=
          fun hd => hrec (by rw [hd]; exact create_batches_nil B)
        have hlen : B < (x :: xs).length := by
          by_contra hc
          exact hdrop (List.drop_eq_nil_of_le (by omega))
        rw [List.mem_cons] at hb
        rcases hb with hb | hb
        · subst hb
          simp only [List.length_take, List.length_cons]
          simp only [List.length_cons] at hlen
          omega
        · exact ih ((x :: xs).drop B) (drop_length_le x xs B n hB hl) b hb

theorem create_batches_getLast {α : Type} (B : Nat) (hB : 0 < B) :
    ∀ (n : Nat) (l : List α), l.length ≤ n →
      ∀ h : create_batches l B ≠ [],
        ((create_batches l B).getLast h).length =
          if l.length % B = 0 then B else l.length % B := by
  intro n
  induction n with
  | zero =>
    intro l hl h
    have : l = [] := List.eq_nil_of_length_eq_zero (Nat.le_zero.mp hl)
    subst this
    exact absurd (create_batches_nil B) h
  | succ n ih =>
    intro l hl h
    cases l with
    | nil => exact absurd (create_batches_nil B) h
    | cons x xs =>
      by_cases hrec : create_batches ((x :: xs).drop B) B = []
      · have hdrop : (x :: xs).drop B = [] :=
          (create_batches_eq_nil_iff _ B hB).mp hrec
        have hle : (x :: xs).length ≤ B := by
          by_contra hc
          have := congrArg List.length hdrop
          simp only [List.length_drop, List.length_nil] at this
          omega
        have he : create_batches (x :: xs) B = [(x :: xs).take B] := by
          rw [create_batches_cons x xs B hB, hrec]
        have hget : (create_batches (x :: xs) B).getLast h = (x :: xs).take B := by
          rw [List.getLast_congr h (List.cons_ne_nil _ _) he]
          exact List.getLast_singleton' _
        rw [hget]
        simp only [List.length_take, List.length_cons]
        simp only [List.length_cons] at hle
        rcases Nat.lt_or_ge (xs.length + 1) B with hlt | hge
        · rw [if_neg (by rw [Nat.mod_eq_of_lt hlt]; omega), Nat.mod_eq_of_lt hlt]
          omega
        · have hBeq : B = xs.length + 1 := by omega
          subst hBeq
          simp
      · have he : create_batches (x :: xs) B =
            (x :: xs).take B :: create_batches ((x :: xs).drop B) B :=
          create_batches_cons x xs B hB
        have hget : (create_batches (x :: xs) B).getLast h =
            (create_batches ((x :: xs).drop B) B).getLast hrec := by
          rw [List.getLast_congr h (List.cons_ne_nil _ _) he]
          exact List.getLast_cons hrec
        rw [hget, ih ((x :: xs).drop B) (drop_length_le x xs B n hB hl) hrec]
        have hdrop : (x :: xs).drop B ≠ [] :=
          fun hd => hrec (by rw [hd]; exact create_batches_nil B)
        have hlen : B < (x :: xs).length := by
          by_contra hc
          exact hdrop (List.drop_eq_nil_of_le (by omega))
        simp only [List.length_drop, List.length_cons]
        simp only [List.length_cons] at hlen
        have hmod : (xs.length + 1) % B = (xs.length + 1 - B) % B :=
          Nat.mod_eq_sub_mod (by omega)
        rw [hmod]

/-- Claim C5: for every list of N ≥ 0 items and every positive batch size B,
`create_batches` produces exactly ceil(N/B) batches whose in-order
concatenation equals the original list, where every batch except possibly
the last has exactly B elements and the last has N mod B elements (or B
when N mod B = 0); in particular N = 0 yields zero batches. -/
theorem C5_create_batches_contract {α : Type} (l : List α) (B : Nat) (hB : 0 < B) :
    (create_batches l B).flatten = l ∧
    (create_batches l B).length = (l.length + B - 1) / B ∧
    (∀ b ∈ (create_batches l B).dropLast, b.length = B) ∧
    (∀ h : create_batches l B ≠ [],
      ((create_batches l B).getLast h).length =
        if l.length % B = 0 then B else l.length % B) ∧
    create_batches ([] : List α) B = [] :=
  ⟨create_batches_join B hB l.length l (Nat.le_refl _),
   create_batches_length B hB l.length l (Nat.le_refl _),
   create_batches_dropLast B hB l.length l (Nat.le_refl _),
   create_batches_getLast B hB l.length l (Nat.le_refl _),
   create_batches_nil B⟩

/-- Witness for C5 at the concrete input [1,2,3,4,5] with batch size 2. -/
theorem C5_create_batches_contract_witness :
    0 < 2 ∧
    ((create_batches [1, 2, 3, 4, 5] 2).flatten = [1, 2, 3, 4, 5] ∧
     (create_batches [1, 2, 3, 4, 5] 2).length = (5 + 2 - 1) / 2 ∧
     (∀ b ∈ (create_batches [1, 2, 3, 4, 5] 2).dropLast, b.length = 2) ∧
     (∀ h : create_batches [1, 2, 3, 4, 5] 2 ≠ [],
       ((create_batches [1, 2, 3, 4, 5] 2).getLast h).length =
         if 5 % 2 = 0 then 2 else 5 % 2) ∧
     create_batches ([] : List Nat) 2 = []) := by
  refine ⟨by decide, ?_⟩
  have h := C5_create_batches_contract [1, 2, 3, 4, 5] 2 (by decide)
  simpa using h

/-! ## Upload drivers (notebook cell 13)

Bulk mode:
```python
index_id = str(uuid.uuid4())
data = {
    "uploadId": index_id,
    "isFirstPage": True,
    "isLastPage": False,
    "forceRestartUpload": True,        # specify when isFirstPage = True
    "datasource": datasource_name,
    "documents": [],
}
batches = list(create_batches(transformed_documents, batch_size))
n = len(batches)
for idx, batch in enumerate(batches):
    data['documents'] = batch
    data['isLastPage'] = idx == n - 1
    response = requests.post(endpoint, headers=glean_headers, json=data)
    if response.status_code == 200: ...
    else: ...; raise RuntimeError('Failed to upload batch')
    if idx == 0:
        data["isFirstPage"] = False
        data.pop('forceRestartUpload')
```
Individual mode:
```python
for document in transformed_documents:
    response = requests.post(endpoint, headers=glean_headers,
                             json={"document": document})
    if response.status_code == 200: ...
    else: ...; raise RuntimeError('Failed to upload document')
```
The mutable dict `data` is the `UploadSession` record below
(`forceRestartUpload : Option Bool` models key presence: `data.pop`
removes the key, modelled as `none`).  Each driver returns the list of
request payloads actually posted, in order, together with the run's
outcome (`Except.error` models the uncaught `RuntimeError`). -/

structure UploadSession (R : Type) where
  uploadId : String
  isFirstPage : Bool
  isLastPage : Bool
  forceRestartUpload : Option Bool
  datasource : String
  documents : List R

/-- The state of the mutable dict after `data['documents'] = batch` and
`data['isLastPage'] = idx == n - 1`: the payload posted for page `idx`. -/
def bulkPayload {R : Type} (data : UploadSession R) (batch : List R)
    (idx n : Nat) : UploadSession R :=
  { data with documents := batch, isLastPage := decide (idx = n - 1) }

/-- The state of the mutable dict after the post-success fixup
(`if idx == 0: data["isFirstPage"] = False; data.pop('forceRestartUpload')`). -/
def bulkNext {R : Type} (payload : UploadSession R) (idx : Nat) : UploadSession R :=
  if idx = 0 then { payload with isFirstPage := false, forceRestartUpload := none }
  else payload

/-- The bulk upload loop body, one step per batch.  `resp idx` is the HTTP
status code returned for the request of page `idx`; `n` is the total number
of batches; `data` is the current state of the mutable payload dict. -/
def bulkGo {R : Type} (resp : Nat → Nat) (n : Nat) :
    UploadSession R → Nat → List (List R) → List (UploadSession R) × Except String Unit
  | _, _, [] => ([], Except.ok ())
  | data, idx, batch :: rest =>
    if resp idx = 200 then
      let r := bulkGo resp n (bulkNext (bulkPayload data batch idx n) idx) (idx + 1) rest
      (bulkPayload data batch idx n :: r.1, r.2)
    else
      ([bulkPayload data batch idx n], Except.error "Failed to upload batch")

/-- The bulk driver: initial payload dict, then the loop over the batches. -/
def bulkRun {R : Type} (index_id : String) (resp : Nat → Nat)
    (batches : List (List R)) : List (UploadSession R) × Except String Unit :=
  bulkGo resp batches.length
    { uploadId := index_id, isFirstPage := true, isLastPage := false,
      forceRestartUpload := some true, datasource := datasource_name,
      documents := [] } 0 batches

/-- The individual upload loop.  `resp idx` is the status code returned for
the request of document `idx`; returns the documents actually posted and
the run's outcome. -/
def individualGo {R : Type} (resp : Nat → Nat) :
    Nat → List R → List R × Except String Unit
  | _, [] => ([], Except.ok ())
  | idx, document :: rest =>
    if resp idx = 200 then
      let r := individualGo resp (idx + 1) rest
      (document :: r.1, r.2)
    else
      ([document], Except.error "Failed to upload document")

def individualRun {R : Type} (resp : Nat → Nat) (documents : List R) :
    List R × Except String Unit :=
  individualGo resp 0 documents

/-- Padding value used with `List.getD` to read a payload list by index. -/
def padSession {R : Type} : UploadSession R :=
  { uploadId := "", isFirstPage := false, isLastPage := false,
    forceRestartUpload := none, datasource := "", documents := [] }

/-- Full characterization of the payloads posted by the bulk loop: payload
`j` of the output (when present) carries the constant `uploadId` and
`datasource`, first/last-page flags computed from its page index, the
`forceRestartUpload` key only on page 0, and the documents of batch `j`. -/
theorem bulkGo_get {R : Type} (resp : Nat → Nat) (n : Nat) :
    ∀ (bs : List (List R)) (idx : Nat) (data : UploadSession R),
      data.isFirstPage = decide (idx = 0) →
      data.forceRestartUpload = (if idx = 0 then some true else none) →
      (bulkGo resp n data idx bs).1.length ≤ bs.length ∧
      ∀ j, j < (bulkGo resp n data idx bs).1.length →
        ((bulkGo resp n data idx bs).1.getD j padSession).uploadId = data.uploadId ∧
        ((bulkGo resp n data idx bs).1.getD j padSession).datasource = data.datasource ∧
        ((bulkGo resp n data idx bs).1.getD j padSession).isFirstPage = decide (idx + j = 0) ∧
        ((bulkGo resp n data idx bs).1.getD j padSession).isLastPage =
          decide (idx + j = n - 1) ∧
        ((bulkGo resp n data idx bs).1.getD j padSession).forceRestartUpload =
          (if idx + j = 0 then some true else none) ∧
        ((bulkGo resp n data idx bs).1.getD j padSession).documents = bs.getD j [] := by
  intro bs
  induction bs with
  | nil =>
    intro idx data _ _
    exact ⟨Nat.le_refl _, fun j hj => absurd hj (by simp [bulkGo])⟩
  | cons batch rest ih =>
    intro idx data hfirst hforce
    have hpu : (bulkPayload data batch idx n).uploadId = data.uploadId := rfl
    have hpd : (bulkPayload data batch idx n).datasource = data.datasource := rfl
    have hpf : (bulkPayload data batch idx n).isFirstPage = decide (idx = 0) := hfirst
    have hpl : (bulkPayload data batch idx n).isLastPage = decide (idx = n - 1) := rfl
    have hpr : (bulkPayload data batch idx n).forceRestartUpload =
        (if idx = 0 then some true else none) := hforce
    have hpdocs : (bulkPayload data batch idx n).documents = batch := rfl
    by_cases hresp : resp idx = 200
    · have heq : bulkGo resp n data idx (batch :: rest) =
          (bulkPayload data batch idx n ::
            (bulkGo resp n (bulkNext (bulkPayload data batch idx n) idx) (idx + 1) rest).1,
           (bulkGo resp n (bulkNext (bulkPayload data batch idx n) idx) (idx + 1) rest).2) := by
        simp only [bulkGo, if_pos hresp]
      set next := bulkNext (bulkPayload data batch idx n) idx with hnext
      have hnf : next.isFirstPage = decide (idx + 1 = 0) := by
        rw [hnext, bulkNext]
        by_cases h0 : idx = 0 <;> simp [h0, bulkPayload, hfirst]
      have hnr : next.forceRestartUpload = (if idx + 1 = 0 then some true else none) := by
        rw [hnext, bulkNext]
        by_cases h0 : idx = 0 <;> simp [h0, bulkPayload]
        rw [hforce, if_neg h0]
      obtain ⟨ihlen, ihget⟩ := ih (idx + 1) next hnf hnr
      have hnu : next.uploadId = data.uploadId := by
        rw [hnext, bulkNext]; by_cases h0 : idx = 0 <;> simp [h0, bulkPayload]
      have hnd : next.datasource = data.datasource := by
        rw [hnext, bulkNext]; by_cases h0 : idx = 0 <;> simp [h0, bulkPayload]
      constructor
      · rw [heq]
        simpa using Nat.succ_le_succ ihlen
      · intro j hj
        rw [heq] at hj ⊢
        cases j with
        | zero =>
          simp only [List.getD_cons_zero]
          exact ⟨hpu, hpd, by simpa using hpf, by simpa using hpl, by simpa using hpr,
            by simpa using hpdocs⟩
        | succ j =>
          simp only [List.getD_cons_succ, List.length_cons] at hj ⊢
          have hj' : j < (bulkGo resp n next (idx + 1) rest).1.length := by omega
          obtain ⟨g1, g2, g3, g4, g5, g6⟩ := ihget j hj'
          have harith : idx + 1 + j = idx + (j + 1) := by omega
          refine ⟨by rw [g1, hnu], by rw [g2, hnd], ?_, ?_, ?_, g6⟩
          · rw [g3, harith]
          · rw [g4, harith]
          · rw [g5, harith]
    · have heq : bulkGo resp n data idx (batch :: rest) =
          ([bulkPayload data batch idx n], Except.error "Failed to upload batch") := by
        simp only [bulkGo, if_neg hresp]
      constructor
      · rw [heq]; simp
      · intro j hj
        rw [heq] at hj ⊢
        have hj0 : j = 0 := by simpa using hj
        subst hj0
        simp only [List.getD_cons_zero]
        exact ⟨hpu, hpd, by simpa using hpf, by simpa using hpl, by simpa using hpr,
          by simpa using hpdocs⟩

/-- The bulk loop returns `ok` exactly when every page in range got a 200. -/
theorem bulkGo_ok_iff {R : Type} (resp : Nat → Nat) (n : Nat) :
    ∀ (bs : List (List R)) (idx : Nat) (data : UploadSession R),
      (bulkGo resp n data idx bs).2 = Except.ok () ↔
        ∀ j, j < bs.length → resp (idx + j) = 200 := by
  intro bs
  induction bs with
  | nil =>
    intro idx data
    simp [bulkGo]
  | cons batch rest ih =>
    intro idx data
    by_cases hresp : resp idx = 200
    · have heq : (bulkGo resp n data idx (batch :: rest)).2 =
          (bulkGo resp n (bulkNext (bulkPayload data batch idx n) idx) (idx + 1) rest).2 := by
        simp only [bulkGo, if_pos hresp]
      rw [heq, ih (idx + 1) (bulkNext (bulkPayload data batch idx n) idx)]
      constructor
      · intro h j hj
        cases j with
        | zero => simpa using hresp
        | succ j =>
          have hj' : j < rest.length := by
            simp only [List.length_cons] at hj; omega
          have h2 := h j hj'
          rw [show idx + (j + 1) = idx + 1 + j by omega]
          exact h2
      · intro h j hj
        have h2 := h (j + 1) (by simp only [List.length_cons]; omega)
        rw [show idx + 1 + j = idx + (j + 1) by omega]
        exact h2
    · have heq : (bulkGo resp n data idx (batch :: rest)).2 =
          Except.error "Failed to upload batch" := by
        simp only [bulkGo, if_neg hresp]
      rw [heq]
      constructor
      · intro h; cases h
      · intro h
        exact absurd (by simpa using h 0 (by simp)) hresp

/-- If some page `k` in range would answer non-200, the bulk loop posts at
most `k + 1` pages and ends in the `RuntimeError`. -/
theorem bulkGo_fail_bound {R : Type} (resp : Nat → Nat) (n : Nat) :
    ∀ (bs : List (List R)) (idx k : Nat) (data : UploadSession R),
      k < bs.length → resp (idx + k) ≠ 200 →
      (bulkGo resp n data idx bs).1.length ≤ k + 1 ∧
      (bulkGo resp n data idx bs).2 = Except.error "Failed to upload batch" := by
  intro bs
  induction bs with
  | nil =>
    intro idx k data hk _
    simp at hk
  | cons batch rest ih =>
    intro idx k data hk hfail
    by_cases hresp : resp idx = 200
    · have heq : bulkGo resp n data idx (batch :: rest) =
          (bulkPayload data batch idx n ::
            (bulkGo resp n (bulkNext (bulkPayload data batch idx n) idx) (idx + 1) rest).1,
           (bulkGo resp n (bulkNext (bulkPayload data batch idx n) idx) (idx + 1) rest).2) := by
        simp only [bulkGo, if_pos hresp]
      cases k with
      | zero => exact absurd (by simpa using hresp) (by simpa using hfail)
      | succ k =>
        have hk' : k < rest.length := by
          simp only [List.length_cons] at hk; omega
        have hfail' : resp (idx + 1 + k) ≠ 200 := by
          intro hc; exact hfail (by rw [show idx + (k + 1) = idx + 1 + k by omega]; exact hc)
        obtain ⟨hlen, herr⟩ := ih (idx + 1) k (bulkNext (bulkPayload data batch idx n) idx)
          hk' hfail'
        rw [heq]
        exact ⟨by simpa using Nat.succ_le_succ hlen, herr⟩
    · have heq : bulkGo resp n data idx (batch :: rest) =
          ([bulkPayload data batch idx n], Except.error "Failed to upload batch") := by
        simp only [bulkGo, if_neg hresp]
      rw [heq]
      exact ⟨by simp, rfl⟩

/-- If pages `idx .. idx+k-1` answer 200 and page `idx+k` does not, the bulk
loop posts exactly the pages up to and including the failing one. -/
theorem bulkGo_first_fail {R : Type} (resp : Nat → Nat) (n : Nat) :
    ∀ (bs : List (List R)) (idx k : Nat) (data : UploadSession R),
      k < bs.length → (∀ i, i < k → resp (idx + i) = 200) → resp (idx + k) ≠ 200 →
      (bulkGo resp n data idx bs).1.length = k + 1 ∧
      (bulkGo resp n data idx bs).2 = Except.error "Failed to upload batch" := by
  intro bs
  induction bs with
  | nil =>
    intro idx k data hk _ _
    simp at hk
  | cons batch rest ih =>
    intro idx k data hk hok hfail
    by_cases hresp : resp idx = 200
    · have heq : bulkGo resp n data idx (batch :: rest) =
          (bulkPayload data batch idx n ::
            (bulkGo resp n (bulkNext (bulkPayload data batch idx n) idx) (idx + 1) rest).1,
           (bulkGo resp n (bulkNext (bulkPayload data batch idx n) idx) (idx + 1) rest).2) := by
        simp only [bulkGo, if_pos hresp]
      cases k with
      | zero => exact absurd (by simpa using hresp) (by simpa using hfail)
      | succ k =>
        have hk' : k < rest.length := by
          simp only [List.length_cons] at hk; omega
        have hok' : ∀ i, i < k → resp (idx + 1 + i) = 200 := by
          intro i hi
          have := hok (i + 1) (by omega)
          rw [show idx + 1 + i = idx + (i + 1) by omega]
          exact this
        have hfail' : resp (idx + 1 + k) ≠ 200 := by
          intro hc; exact hfail (by rw [show idx + (k + 1) = idx + 1 + k by omega]; exact hc)
        obtain ⟨hlen, herr⟩ := ih (idx + 1) k (bulkNext (bulkPayload data batch idx n) idx)
          hk' hok' hfail'
        rw [heq]
        exact ⟨by simpa using congrArg Nat.succ hlen, herr⟩
    · cases k with
      | zero =>
        have heq : bulkGo resp n data idx (batch :: rest) =
            ([bulkPayload data batch idx n], Except.error "Failed to upload batch") := by
          simp only [bulkGo, if_neg hresp]
        rw [heq]
        exact ⟨by simp, rfl⟩
      | succ k => exact absurd (by simpa using hok 0 (by omega)) hresp

/-- `ok` of the individual loop iff every document in range got a 200. -/
theorem individualGo_ok_iff {R : Type} (resp : Nat → Nat) :
    ∀ (docs : List R) (idx : Nat),
      (individualGo resp idx docs).2 = Except.ok () ↔
        ∀ j, j < docs.length → resp (idx + j) = 200 := by
  intro docs
  induction docs with
  | nil =>
    intro idx
    simp [individualGo]
  | cons document rest ih =>
    intro idx
    by_cases hresp : resp idx = 200
    · have heq : (individualGo resp idx (document :: rest)).2 =
          (individualGo resp (idx + 1) rest).2 := by
        simp only [individualGo, if_pos hresp]
      rw [heq, ih (idx + 1)]
      constructor
      · intro h j hj
        cases j with
        | zero => simpa using hresp
        | succ j =>
          have hj' : j < rest.length := by
            simp only [List.length_cons] at hj; omega
          have := h j hj'
          simpa [Nat.add_assoc, Nat.add_comm 1 j] using this
      · intro h j hj
        have := h (j + 1) (by simp [List.length_cons]; omega)
        simpa [Nat.add_assoc, Nat.add_comm 1 j] using this
    · have heq : (individualGo resp idx (document :: rest)).2 =
          Except.error "Failed to upload document" := by
        simp only [individualGo, if_neg hresp]
      rw [heq]
      constructor
      · intro h; cases h
      · intro h
        exact absurd (by simpa using h 0 (by simp)) hresp

/-- If documents `idx .. idx+k-1` answer 200 and document `idx+k` does not,
the individual loop posts exactly the documents up to and including the
failing one and then raises: later documents are never posted. -/
theorem individualGo_first_fail {R : Type} (resp : Nat → Nat) :
    ∀ (docs : List R) (idx k : Nat),
      k < docs.length → (∀ i, i < k → resp (idx + i) = 200) → resp (idx + k) ≠ 200 →
      individualGo resp idx docs =
        (docs.take (k + 1), Except.error "Failed to upload document") := by
  intro docs
  induction docs with
  | nil =>
    intro idx k hk _ _
    simp at hk
  | cons document rest ih =>
    intro idx k hk hok hfail
    by_cases hresp : resp idx = 200
    · have heq : individualGo resp idx (document :: rest) =
          (document :: (individualGo resp (idx + 1) rest).1,
           (individualGo resp (idx + 1) rest).2) := by
        simp only [individualGo, if_pos hresp]
      cases k with
      | zero => exact absurd (by simpa using hresp) (by simpa using hfail)
      | succ k =>
        have hk' : k < rest.length := by
          simp only [List.length_cons] at hk; omega
        have hok' : ∀ i, i < k → resp (idx + 1 + i) = 200 := by
          intro i hi
          have := hok (i + 1) (by omega)
          rw [show idx + 1 + i = idx + (i + 1) by omega]
          exact this
        have hfail' : resp (idx + 1 + k) ≠ 200 := by
          intro hc; exact hfail (by rw [show idx + (k + 1) = idx + 1 + k by omega]; exact hc)
        rw [heq, ih (idx + 1) k hk' hok' hfail']
        simp [List.take_cons]
    · cases k with
      | zero =>
        have heq : individualGo resp idx (document :: rest) =
            ([document], Except.error "Failed to upload document") := by
          simp only [individualGo, if_neg hresp]
        rw [heq]
        simp
      | succ k => exact absurd (by simpa using hok 0 (by omega)) hresp

/-! ## Claims about the upload drivers -/

/-- Claim C2: in bulk mode, for every non-empty batch sequence of length n,
the payload sent for page j has isFirstPage = true exactly when j = 0 and
isLastPage = true exactly when j = n-1, and the key forceRestartUpload is
present (with value true) in the page-0 payload and entirely absent from
every payload for pages j > 0.  (`(bulkRun ...).1` is the ordered list of
payloads actually posted; its element j is the request for page j.) -/
theorem C2_bulk_session_framing {R : Type} (index_id : String) (resp : Nat → Nat)
    (batches : List (List R)) (_hne : batches ≠ [])
    (j : Nat) (hj : j < (bulkRun index_id resp batches).1.length) :
    ((bulkRun index_id resp batches).1.getD j padSession).isFirstPage = decide (j = 0) ∧
    ((bulkRun index_id resp batches).1.getD j padSession).isLastPage =
      decide (j = batches.length - 1) ∧
    ((bulkRun index_id resp batches).1.getD j padSession).forceRestartUpload =
      (if j = 0 then some true else none) := by
  obtain ⟨-, hget⟩ :=
    bulkGo_get resp batches.length batches 0
      { uploadId := index_id, isFirstPage := true, isLastPage := false,
        forceRestartUpload := some true, datasource := datasource_name,
        documents := [] } (by simp) (by simp)
  obtain ⟨-, -, g3, g4, g5, -⟩ := hget j (by simpa [bulkRun] using hj)
  refine ⟨?_, ?_, ?_⟩
  · simpa [bulkRun] using g3
  · simpa [bulkRun] using g4
  · simpa [bulkRun] using g5

/-- Witness for C2: two batches, both accepted; the page-0 payload checks out. -/
theorem C2_bulk_session_framing_witness :
    ([[0], [1]] : List (List Nat)) ≠ [] ∧
    0 < (bulkRun "upload-1" (fun _ => 200) [[0], [1]] : List (UploadSession Nat) ×
      Except String Unit).1.length ∧
    (((bulkRun "upload-1" (fun _ => 200) [[0], [1]]).1.getD 0 padSession).isFirstPage =
        decide ((0 : Nat) = 0) ∧
      ((bulkRun "upload-1" (fun _ => 200) [[0], [1]]).1.getD 0 padSession).isLastPage =
        decide ((0 : Nat) = ([[0], [1]] : List (List Nat)).length - 1) ∧
      ((bulkRun "upload-1" (fun _ => 200) [[0], [1]]).1.getD 0 padSession).forceRestartUpload =
        (if (0 : Nat) = 0 then some true else none)) :=
  ⟨by decide, by decide,
    C2_bulk_session_framing "upload-1" (fun _ => 200) [[0], [1]] (by decide) 0 (by decide)⟩

/-- Claim C3: in bulk mode, if the request for page k returns a non-2xx
status, then no request is ever sent for any page k+1 .. n-1 (at most the
pages 0 .. k are posted) and the run aborts with the RuntimeError. -/
theorem C3_bulk_abort_on_failure {R : Type} (index_id : String) (resp : Nat → Nat)
    (batches : List (List R)) (k : Nat) (hk : k < batches.length)
    (h2xx : ¬ (200 ≤ resp k ∧ resp k < 300)) :
    (bulkRun index_id resp batches).1.length ≤ k + 1 ∧
    (bulkRun index_id resp batches).2 = Except.error "Failed to upload batch" := by
  have hne : resp k ≠ 200 := fun h => h2xx (by omega)
  have h :=
    bulkGo_fail_bound resp batches.length batches 0 k
      { uploadId := index_id, isFirstPage := true, isLastPage := false,
        forceRestartUpload := some true, datasource := datasource_name,
        documents := [] } hk (by simpa using hne)
  simpa [bulkRun] using h

/-- Witness for C3: three batches, page 0 answers 500; at most one page posted. -/
theorem C3_bulk_abort_on_failure_witness :
    (0 : Nat) < ([[0], [1], [2]] : List (List Nat)).length ∧
    ¬ (200 ≤ 500 ∧ 500 < 300) ∧
    ((bulkRun "upload-1" (fun _ => 500) [[0], [1], [2]] : List (UploadSession Nat) ×
        Except String Unit).1.length ≤ 0 + 1 ∧
      (bulkRun "upload-1" (fun _ => 500) [[0], [1], [2]]).2 =
        Except.error "Failed to upload batch") :=
  ⟨by decide, by decide,
    C3_bulk_abort_on_failure "upload-1" (fun _ => 500) [[0], [1], [2]] 0 (by decide)
      (by decide)⟩

/-- Counterexample to claim C4: a 201 response (a 2xx status) is NOT treated
as accepted — both drivers treat it as a failure and raise, so acceptance is
not "status in the 2xx class" but "status equal to 200". -/
theorem C4_counterexample :
    (200 ≤ 201 ∧ 201 < 300) ∧
    (bulkRun "upload-1" (fun _ => 201) [[(0 : Nat)]]).2 =
      Except.error "Failed to upload batch" ∧
    (individualRun (fun _ => 201) [(0 : Nat)]).2 =
      Except.error "Failed to upload document" :=
  ⟨by decide, rfl, rfl⟩

/-- Claim C4 (amended): an upload response is treated as accepted — the
driver advances and the run can end in ok — exactly when its status code
equals 200; every other status (including other 2xx codes such as 201) is
treated as rejected and aborts the run. -/
theorem C4_accept_iff_200 {R : Type} (index_id : String) (resp : Nat → Nat)
    (batches : List (List R)) (docs : List R) :
    ((bulkRun index_id resp batches).2 = Except.ok () ↔
      ∀ j, j < batches.length → resp j = 200) ∧
    ((individualRun resp docs).2 = Except.ok () ↔
      ∀ j, j < docs.length → resp j = 200) := by
  constructor
  · have h :=
      bulkGo_ok_iff resp batches.length batches 0
        { uploadId := index_id, isFirstPage := true, isLastPage := false,
          forceRestartUpload := some true, datasource := datasource_name,
          documents := [] }
    simpa [bulkRun] using h
  · have h := individualGo_ok_iff resp docs 0
    simpa [individualRun] using h

/-- Witness for C4 (amended), at one batch and one document, all 200. -/
theorem C4_accept_iff_200_witness :
    ((bulkRun "upload-1" (fun _ => 200) [[(0 : Nat)]]).2 = Except.ok () ↔
      ∀ j, j < ([[(0 : Nat)]] : List (List Nat)).length → (fun _ => 200 : Nat → Nat) j = 200) ∧
    ((individualRun (fun _ => 200) [(0 : Nat)]).2 = Except.ok () ↔
      ∀ j, j < ([(0 : Nat)] : List Nat).length → (fun _ => 200 : Nat → Nat) j = 200) :=
  C4_accept_iff_200 "upload-1" (fun _ => 200) [[0]] [0]

/-- Counterexample to claim C1: in individual mode with two documents where
document 0's request answers 500, the run raises at once — document 1 is
never submitted (the posted list is just `[0]`), contradicting "documents at
indices after j are still submitted ... the run does not abort early". -/
theorem C1_counterexample :
    individualRun (fun _ => 500) [(0 : Nat), 1] =
      ([0], Except.error "Failed to upload document") := rfl

/-- Claim C1 (amended): in individual mode the run aborts at the FIRST
document whose request does not answer 200: exactly the documents up to and
including the failing one are posted, the remaining documents are never
submitted, and the run raises the RuntimeError. -/
theorem C1_individual_abort {R : Type} (resp : Nat → Nat) (docs : List R) (k : Nat)
    (hk : k < docs.length) (hok : ∀ i, i < k → resp i = 200) (hfail : resp k ≠ 200) :
    individualRun resp docs =
      (docs.take (k + 1), Except.error "Failed to upload document") := by
  have h := individualGo_first_fail resp docs 0 k hk (by simpa using hok) (by simpa using hfail)
  simpa [individualRun] using h

/-- Witness for C1 (amended): two documents, the first one fails. -/
theorem C1_individual_abort_witness :
    (0 : Nat) < ([(0 : Nat), 1] : List Nat).length ∧
    (∀ i, i < 0 → (fun _ => 500 : Nat → Nat) i = 200) ∧
    (fun _ => 500 : Nat → Nat) 0 ≠ 200 ∧
    individualRun (fun _ => 500) [(0 : Nat), 1] =
      (([(0 : Nat), 1] : List Nat).take (0 + 1), Except.error "Failed to upload document") :=
  ⟨by decide, fun i hi => absurd hi (Nat.not_lt_zero i), by decide,
    C1_individual_abort (fun _ => 500) [0, 1] 0 (by decide)
      (fun i hi => absurd hi (Nat.not_lt_zero i)) (by decide)⟩

/-- Claim C6: in bulk mode the uploadId is generated once at session start
and every posted page payload carries that same uploadId and the same
datasource name; no page payload carries a different uploadId. -/
theorem C6_uploadId_constant {R : Type} (index_id : String) (resp : Nat → Nat)
    (batches : List (List R)) (j : Nat)
    (hj : j < (bulkRun index_id resp batches).1.length) :
    ((bulkRun index_id resp batches).1.getD j padSession).uploadId = index_id ∧
    ((bulkRun index_id resp batches).1.getD j padSession).datasource = datasource_name := by
  obtain ⟨-, hget⟩ :=
    bulkGo_get resp batches.length batches 0
      { uploadId := index_id, isFirstPage := true, isLastPage := false,
        forceRestartUpload := some true, datasource := datasource_name,
        documents := [] } (by simp) (by simp)
  obtain ⟨g1, g2, -, -, -, -⟩ := hget j (by simpa [bulkRun] using hj)
  exact ⟨by simpa [bulkRun] using g1, by simpa [bulkRun] using g2⟩

/-- Witness for C6 at two batches with all-200 responses, page 1. -/
theorem C6_uploadId_constant_witness :
    (1 : Nat) < (bulkRun "upload-1" (fun _ => 200) [[0], [1]] : List (UploadSession Nat) ×
      Except String Unit).1.length ∧
    (((bulkRun "upload-1" (fun _ => 200) [[0], [1]]).1.getD 1 padSession).uploadId =
        "upload-1" ∧
      ((bulkRun "upload-1" (fun _ => 200) [[0], [1]]).1.getD 1 padSession).datasource =
        datasource_name) :=
  ⟨by decide, C6_uploadId_constant "upload-1" (fun _ => 200) [[0], [1]] 1 (by decide)⟩

/-- Claim C8: in bulk mode with an empty document list and a positive batch
size, `create_batches` yields zero batches, the loop never runs, and no
upload request of any kind is sent: the run is a no-op that ends in ok.
(The hypothesis `0 < B` keeps the statement inside the source's domain:
Python's `range(0, len, 0)` raises `ValueError` for batch size 0.) -/
theorem C8_empty_bulk_noop {R : Type} (index_id : String) (resp : Nat → Nat)
    (B : Nat) (_hB : 0 < B) :
    bulkRun index_id resp (create_batches ([] : List R) B) = ([], Except.ok ()) := rfl

/-- Witness for C8 at the notebook's configured batch size 100. -/
theorem C8_empty_bulk_noop_witness :
    (0 : Nat) < 100 ∧
    bulkRun "upload-1" (fun _ => 200) (create_batches ([] : List Nat) 100) =
      ([], Except.ok ()) :=
  ⟨by decide, C8_empty_bulk_noop "upload-1" (fun _ => 200) 100 (by decide)⟩

/-! ## Base64 (notebook cell 6)

Source:
```python
def convert_raw_binary_to_base64_string(raw_binary):
    return base64.b64encode(raw_binary).decode('utf-8')
```
`base64.b64encode` is standard RFC 4648 base64: each 3-byte group becomes 4
alphabet characters; a trailing 2-byte group becomes 3 characters plus one
padding character `=`; a trailing 1-byte group becomes 2 characters plus
`==`.  Bytes and characters are both modelled as `Nat` (for characters,
their ASCII code points; 61 = the code of `=`).  `b64decode` is the inverse
(standard base64 decoding of a padded string), used to state the implicit
round-trip claim. -/

/-- Code point of the base64 alphabet character for a sextet value < 64. -/
def b64charOf (v : Nat) : Nat :=
  if v < 26 then 65 + v
  else if v < 52 then 97 + (v - 26)
  else if v < 62 then 48 + (v - 52)
  else if v = 62 then 43
  else 47

/-- Sextet value of a base64 alphabet code point (total on `Nat`; only
alphabet code points arise when decoding an encoder output). -/
def b64valOf (c : Nat) : Nat :=
  if 65 ≤ c ∧ c ≤ 90 then c - 65
  else if 97 ≤ c ∧ c ≤ 122 then c - 97 + 26
  else if 48 ≤ c ∧ c ≤ 57 then c - 48 + 52
  else if c = 43 then 62
  else if c = 47 then 63
  else 0

def b64encode : List Nat → List Nat
  | [] => []
  | [a] => [b64charOf (a / 4), b64charOf (a % 4 * 16), 61, 61]
  | [a, b] => [b64charOf (a / 4), b64charOf (a % 4 * 16 + b / 16),
               b64charOf (b % 16 * 4), 61]
  | a :: b :: c :: rest =>
    b64charOf (a / 4) :: b64charOf (a % 4 * 16 + b / 16) ::
      b64charOf (b % 16 * 4 + c / 64) :: b64charOf (c % 64) :: b64encode rest

def b64decode : List Nat → Option (List Nat)
  | [] => some []
  | w :: x :: y :: z :: rest =>
    if y = 61 then
      if z = 61 ∧ rest = [] then some [b64valOf w * 4 + b64valOf x / 16] else none
    else if z = 61 then
      if rest = [] then
        some [b64valOf w * 4 + b64valOf x / 16,
              b64valOf x % 16 * 16 + b64valOf y / 4]
      else none
    else
      match b64decode rest with
      | some tail =>
        some ((b64valOf w * 4 + b64valOf x / 16) ::
              (b64valOf x % 16 * 16 + b64valOf y / 4) ::
              (b64valOf y % 4 * 64 + b64valOf z) :: tail)
      | none => none
  | _ => none

/-- The connector utility: bytes in, base64 character code points out. -/
def convert_raw_binary_to_base64_string (raw_binary : List Nat) : List Nat :=
  b64encode raw_binary

theorem b64valOf_b64charOf (v : Nat) (hv : v < 64) : b64valOf (b64charOf v) = v := by
  unfold b64charOf b64valOf
  split_ifs <;> omega

theorem b64charOf_ne_pad (v : Nat) (hv : v < 64) : b64charOf v ≠ 61 := by
  unfold b64charOf
  split_ifs <;> omega

/-- Claim C9: for every byte string, base64-decoding the string returned by
`convert_raw_binary_to_base64_string` yields exactly the original bytes —
the binary-content encoding used by the transformer is a lossless
round-trip. -/
theorem C9_base64_roundtrip :
    ∀ (raw : List Nat), (∀ b ∈ raw, b < 256) →
      b64decode (convert_raw_binary_to_base64_string raw) = some raw := by
  intro l
  unfold convert_raw_binary_to_base64_string
  induction l using b64encode.induct with
  | case1 => intro _; rfl
  | case2 a =>
    intro h
    have ha : a < 256 := h a (by simp)
    have h1 : b64valOf (b64charOf (a / 4)) = a / 4 :=
      b64valOf_b64charOf _ (by omega)
    have h2 : b64valOf (b64charOf (a % 4 * 16)) = a % 4 * 16 :=
      b64valOf_b64charOf _ (by omega)
    simp only [b64encode, b64decode, h1, h2, if_pos rfl]
    norm_num
    omega
  | case3 a b =>
    intro h
    have ha : a < 256 := h a (by simp)
    have hb : b < 256 := h b (by simp)
    have h1 : b64valOf (b64charOf (a / 4)) = a / 4 :=
      b64valOf_b64charOf _ (by omega)
    have h2 : b64valOf (b64charOf (a % 4 * 16 + b / 16)) = a % 4 * 16 + b / 16 :=
      b64valOf_b64charOf _ (by omega)
    have h3 : b64valOf (b64charOf (b % 16 * 4)) = b % 16 * 4 :=
      b64valOf_b64charOf _ (by omega)
    have hne : b64charOf (b % 16 * 4) ≠ 61 := b64charOf_ne_pad _ (by omega)
    simp only [b64encode, b64decode, h1, h2, h3, if_neg hne, if_pos rfl]
    norm_num
    omega
  | case4 a b c rest ih =>
    intro h
    have ha : a < 256 := h a (by simp)
    have hb : b < 256 := h b (by simp)
    have hc : c < 256 := h c (by simp)
    have hrest : ∀ x ∈ rest, x < 256 := fun x hx => h x (by simp [hx])
    have h1 : b64valOf (b64charOf (a / 4)) = a / 4 :=
      b64valOf_b64charOf _ (by omega)
    have h2 : b64valOf (b64charOf (a % 4 * 16 + b / 16)) = a % 4 * 16 + b / 16 :=
      b64valOf_b64charOf _ (by omega)
    have h3 : b64valOf (b64charOf (b % 16 * 4 + c / 64)) = b % 16 * 4 + c / 64 :=
      b64valOf_b64charOf _ (by omega)
    have h4 : b64valOf (b64charOf (c % 64)) = c % 64 :=
      b64valOf_b64charOf _ (by omega)
    have hne3 : b64charOf (b % 16 * 4 + c / 64) ≠ 61 := b64charOf_ne_pad _ (by omega)
    have hne4 : b64charOf (c % 64) ≠ 61 := b64charOf_ne_pad _ (by omega)
    simp only [b64encode, b64decode, h1, h2, h3, h4, if_neg hne3, if_neg hne4,
      ih hrest]
    norm_num
    omega

/-- Witness for C9 at the classic three-byte example "Man" = [77, 97, 110]. -/
theorem C9_base64_roundtrip_witness :
    (∀ b ∈ [77, 97, 110], b < 256) ∧
    b64decode (convert_raw_binary_to_base64_string [77, 97, 110]) =
      some [77, 97, 110] :=
  ⟨by decide, C9_base64_roundtrip [77, 97, 110] (by decide)⟩

/-! ## Timestamp conversion (notebook cell 6)

Source:
```python
def convert_timestamp_to_epoch_seconds(datetime_str:str) -> int :
    datetime_obj = datetime.datetime.strptime(datetime_str, '%Y-%m-%dT%H:%M:%SZ')
    return int(datetime_obj.timestamp())
```
`strptime` matches the whole string against the format and raises
`ValueError` otherwise.  CPython compiles the directives to the regular
expressions `%Y ↦ \d\d\d\d`, `%m ↦ 1[0-2]|0[1-9]|[1-9]`,
`%d ↦ 3[01]|[1-2]\d|0[1-9]|[1-9]`, `%H ↦ 2[0-3]|[0-1]\d|\d`,
`%M ↦ [0-5]\d|\d` and `%S ↦ 6[0-1]|[0-5]\d|\d` (one- or two-digit
numeric fields; a two-digit read never backtracks to one digit because the
following literal separator is never a digit), compiles the whole regex
with `re.IGNORECASE` (so the literals `T` and `Z` also match `t` and `z`),
and then the `datetime`
constructor validates the fields (year ≥ 1, day within the month, second
≤ 59).  All of that is `strptimeYmdHMSZ` below; failure is `none`.
`datetime.timestamp()` turns the parsed fields into epoch seconds (for a
naive datetime CPython applies the local timezone; the embedding fixes the
timezone to UTC, which determines the value; no claim depends on the
offset).  -/

structure TM where
  tm_year : Nat
  tm_mon : Nat
  tm_mday : Nat
  tm_hour : Nat
  tm_min : Nat
  tm_sec : Nat
deriving DecidableEq

def digitVal (c : Char) : Nat := c.toNat - 48

/-- `%Y`: exactly four digits. -/
def parseYear4 : List Char → Option (Nat × List Char)
  | c1 :: c2 :: c3 :: c4 :: rest =>
    if c1.isDigit && c2.isDigit && c3.isDigit && c4.isDigit then
      some (digitVal c1 * 1000 + digitVal c2 * 100 + digitVal c3 * 10 + digitVal c4, rest)
    else none
  | _ => none

/-- A one- or two-digit numeric field: a greedy two-digit read accepted when
the value is in `[lo2, hi2]`, otherwise a one-digit read accepted when the
value is at least `lo1`. -/
def parseNum2 (lo2 hi2 lo1 : Nat) : List Char → Option (Nat × List Char)
  | c1 :: c2 :: rest =>
    if c1.isDigit then
      if c2.isDigit then
        if lo2 ≤ digitVal c1 * 10 + digitVal c2 ∧ digitVal c1 * 10 + digitVal c2 ≤ hi2 then
          some (digitVal c1 * 10 + digitVal c2, rest)
        else none
      else
        if lo1 ≤ digitVal c1 then some (digitVal c1, c2 :: rest) else none
    else none
  | [c1] =>
    if c1.isDigit then
      if lo1 ≤ digitVal c1 then some (digitVal c1, []) else none
    else none
  | [] => none

/-- A literal character of the format string.  CPython compiles the whole
strptime format regex with `re.IGNORECASE`, so a literal letter such as `T`
or `Z` also matches its lower-case form; comparison is on lower-cased
characters (no effect on `-` and `:`). -/
def parseLitChar (c : Char) : List Char → Option (List Char)
  | x :: rest => if x.toLower = c.toLower then some rest else none
  | [] => none

def isLeapYear (y : Nat) : Bool :=
  y % 4 = 0 && (y % 100 ≠ 0 || y % 400 = 0)

def daysInMonth (y m : Nat) : Nat :=
  if m = 2 then (if isLeapYear y then 29 else 28)
  else if m = 4 ∨ m = 6 ∨ m = 9 ∨ m = 11 then 30
  else 31

/-- `strptime(datetime_str, '%Y-%m-%dT%H:%M:%SZ')`: the whole string must
match, and the fields must form a valid `datetime`. -/
def strptimeYmdHMSZ (datetime_str : String) : Option TM := do
  let (y, r1) ← parseYear4 datetime_str.data
  let r2 ← parseLitChar '-' r1
  let (mo, r3) ← parseNum2 1 12 1 r2
  let r4 ← parseLitChar '-' r3
  let (d, r5) ← parseNum2 1 31 1 r4
  let r6 ← parseLitChar 'T' r5
  let (h, r7) ← parseNum2 0 23 0 r6
  let r8 ← parseLitChar ':' r7
  let (mi, r9) ← parseNum2 0 59 0 r8
  let r10 ← parseLitChar ':' r9
  let (s, r11) ← parseNum2 0 61 0 r10
  let r12 ← parseLitChar 'Z' r11
  if r12 = [] then
    if 1 ≤ y ∧ 1 ≤ d ∧ d ≤ daysInMonth y mo ∧ s ≤ 59 then
      some ⟨y, mo, d, h, mi, s⟩
    else none
  else none

/-- Days from 0001-01-01 to the first day of month `m` of year `y`. -/
def daysBeforeMonth (y m : Nat) : Nat :=
  (if 2 ≤ m then 31 else 0) +
  (if 3 ≤ m then (if isLeapYear y then 29 else 28) else 0) +
  (if 4 ≤ m then 31 else 0) + (if 5 ≤ m then 30 else 0) +
  (if 6 ≤ m then 31 else 0) + (if 7 ≤ m then 30 else 0) +
  (if 8 ≤ m then 31 else 0) + (if 9 ≤ m then 31 else 0) +
  (if 10 ≤ m then 30 else 0) + (if 11 ≤ m then 31 else 0) +
  (if 12 ≤ m then 30 else 0)

/-- Epoch seconds of a parsed UTC datetime (719162 days separate
0001-01-01 from 1970-01-01). -/
def epochOfTM (t : TM) : Int :=
  let y1 := t.tm_year - 1
  let days : Nat := 365 * y1 + y1 / 4 - y1 / 100 + y1 / 400 +
    daysBeforeMonth t.tm_year t.tm_mon + (t.tm_mday - 1)
  ((days : Int) - 719162) * 86400 +
    (t.tm_hour : Int) * 3600 + (t.tm_min : Int) * 60 + (t.tm_sec : Int)

def convert_timestamp_to_epoch_seconds (datetime_str : String) : Option Int :=
  (strptimeYmdHMSZ datetime_str).map epochOfTM

/-! ## Transformer (notebook cell 11)

Source:
```python
def transform_document(document):
    return {
        'datasource': datasource_name,
        'id': document['id'],
        'objectType': object_type,
        'viewURL': document['url'],
        'permissions': {'allowAnonymousAccess': True},
        'title': document['title'],
        'body': {'mimeType': 'application/pdf',
                 'binaryContent': convert_raw_binary_to_base64_string(document['binary_content'])},
        'author': {'email': document['authorEmail'], 'name': document['author']},
        'createdAt': convert_timestamp_to_epoch_seconds(document['date_created'])
    }
transformed_documents = [transform_document(document) for document in documents]
```
`document[k]` on a missing key raises `KeyError`, and a bad `date_created`
raises `ValueError` inside `convert_timestamp_to_epoch_seconds`; either way
`transform_document` produces no record and the list comprehension aborts.
Optional input keys are `Option` fields of `RawDocument`; the `Option`
binds below model the raising accesses (the order of the binds does not
matter: any failing access yields `none`). -/

structure RawDocument where
  binary_content : List Nat
  url : String
  filename : String
  author : Option String
  authorEmail : Option String
  title : String
  date_created : Option String
  id : String

structure DocumentAuthor where
  email : String
  name : String
deriving DecidableEq

structure DocumentBody where
  mimeType : String
  binaryContent : List Nat
deriving DecidableEq

structure DocumentPermissions where
  allowAnonymousAccess : Bool
deriving DecidableEq

structure IndexRecord where
  datasource : String
  id : String
  objectType : String
  viewURL : String
  permissions : DocumentPermissions
  title : String
  body : DocumentBody
  author : Option DocumentAuthor
  createdAt : Option Int
deriving DecidableEq

def transform_document (document : RawDocument) : Option IndexRecord := do
  let authorEmail ← document.authorEmail
  let authorName ← document.author
  let date_created ← document.date_created
  let createdAt ← convert_timestamp_to_epoch_seconds date_created
  pure
    { datasource := datasource_name
      id := document.id
      objectType := object_type
      viewURL := document.url
      permissions := { allowAnonymousAccess := true }
      title := document.title
      body := { mimeType := "application/pdf"
                binaryContent := convert_raw_binary_to_base64_string document.binary_content }
      author := some { email := authorEmail, name := authorName }
      createdAt := some createdAt }

/-- The transformation pass over all pulled documents (the list
comprehension, in order: the first raising document aborts the whole pass
and no list is produced). -/
def transform_documents : List RawDocument → Option (List IndexRecord)
  | [] => some []
  | document :: rest => do
    let r ← transform_document document
    let rs ← transform_documents rest
    pure (r :: rs)

/-- A RawDocument with every required field present and every optional field
(author, authorEmail, date_created) absent. -/
def docNoOptionals : RawDocument :=
  { binary_content := [37, 80], url := "https://mywebsite.com/files/a.pdf",
    filename := "a.pdf", author := none, authorEmail := none,
    title := "Sample Document", date_created := none, id := "a.pdf" }

/-- Counterexample to claim C7: for a RawDocument with all required input
fields but absent optional fields, `transform_document` does not produce a
record with the optional output keys omitted — it raises (KeyError on
`document['authorEmail']`) and produces no record at all, so the whole
transformation pass fails too. -/
theorem C7_counterexample :
    transform_document docNoOptionals = none ∧
    transform_documents [docNoOptionals] = none := ⟨rfl, rfl⟩

/-- Claim C7 (amended): for every RawDocument in which ALL input fields —
required and optional — are present and whose date_created converts, the
transformer populates every required IndexRecord field (datasource, the
RawDocument's id, objectType, viewURL, permissions, title, body with
mimeType 'application/pdf' and base64 binaryContent) and sets author and
createdAt; but when any of the optional input fields (author, authorEmail,
date_created) is absent, `transform_document` raises (produces no record)
rather than omitting the corresponding output keys. -/
theorem C7_transform_fields :
    (∀ (document : RawDocument) (e a dc : String) (t : Int),
      document.authorEmail = some e → document.author = some a →
      document.date_created = some dc →
      convert_timestamp_to_epoch_seconds dc = some t →
      transform_document document = some
        { datasource := datasource_name
          id := document.id
          objectType := object_type
          viewURL := document.url
          permissions := { allowAnonymousAccess := true }
          title := document.title
          body := { mimeType := "application/pdf"
                    binaryContent :=
                      convert_raw_binary_to_base64_string document.binary_content }
          author := some { email := e, name := a }
          createdAt := some t }) ∧
    (∀ document : RawDocument,
      document.authorEmail = none ∨ document.author = none ∨
        document.date_created = none →
      transform_document document = none) := by
  constructor
  · intro document e a dc t he ha hdc ht
    simp [transform_document, he, ha, hdc, ht]
  · intro document h
    rcases h with he | ha | hdc
    · simp [transform_document, he]
    · cases he : document.authorEmail with
      | none => simp [transform_document, he]
      | some e => simp [transform_document, he, ha]
    · cases he : document.authorEmail with
      | none => simp [transform_document, he]
      | some e =>
        cases ha : document.author with
        | none => simp [transform_document, he, ha]
        | some a => simp [transform_document, he, ha, hdc]

/-- A RawDocument with all fields, matching the notebook's sample reader. -/
def docFull : RawDocument :=
  { binary_content := [37, 80], url := "https://mywebsite.com/files/a.pdf",
    filename := "a.pdf", author := some "John Doe",
    authorEmail := some "john.doe@acme.com", title := "Sample Document",
    date_created := some "2024-12-15T03:05:58Z", id := "a.pdf" }

/-- Witness for C7 (amended), evaluated at `docFull` and `docNoOptionals`. -/
theorem C7_transform_fields_witness :
    docFull.authorEmail = some "john.doe@acme.com" ∧
    docFull.author = some "John Doe" ∧
    docFull.date_created = some "2024-12-15T03:05:58Z" ∧
    convert_timestamp_to_epoch_seconds "2024-12-15T03:05:58Z" = some 1734231958 ∧
    transform_document docFull = some
      { datasource := datasource_name
        id := docFull.id
        objectType := object_type
        viewURL := docFull.url
        permissions := { allowAnonymousAccess := true }
        title := docFull.title
        body := { mimeType := "application/pdf"
                  binaryContent :=
                    convert_raw_binary_to_base64_string docFull.binary_content }
        author := some { email := "john.doe@acme.com", name := "John Doe" }
        createdAt := some 1734231958 } ∧
    (docNoOptionals.authorEmail = none ∨ docNoOptionals.author = none ∨
      docNoOptionals.date_created = none) ∧
    transform_document docNoOptionals = none :=
  ⟨rfl, rfl, rfl, rfl,
    (C7_transform_fields).1 docFull "john.doe@acme.com" "John Doe"
      "2024-12-15T03:05:58Z" 1734231958 rfl rfl rfl rfl,
    Or.inl rfl,
    (C7_transform_fields).2 docNoOptionals (Or.inl rfl)⟩

